import Mathlib

/-!
Verification of the `ruuvitag-form` command line tool
(`src/ruuvitag/form/__init__.py`) against its natural-language
specification.  The Python program is shallowly embedded: every Python
function of the module becomes a Lean function over explicit data, the
HTTP fetch is abstracted by a `NetResult` value describing the response
of the single GET request, and process behaviour (stdout, stderr, exit
status, uncaught exceptions) is captured by the `RunResult` type.

Numbers decoded from the JSON body are decimal literals; they are
modelled exactly as `mantissa * 10 ^ (- exp)` with an integer mantissa,
so that Python float formatting (`%.2f`, `str`) is computed exactly.
-/

namespace RuuvitagForm

/-- Model of a Python value as it appears in the decoded JSON record
fields: either a number (the `Bool` records whether it is a float, as
opposed to an int) or a string.  A number `num f m e` denotes the exact
decimal `m / 10 ^ e`. -/
inductive PyVal where
| num (isFloat : Bool) (m : ℤ) (e : ℕ)
| str (s : String)
deriving DecidableEq

/-- Rational value denoted by a `PyVal` number (strings denote none). -/
def PyVal.toRat : PyVal → ℚ
| .num _ m e => (m : ℚ) / (10 : ℚ) ^ e
| .str _ => 0

/-- Python `str.upper()` (ASCII, which covers every value the program
handles). -/
def pyUpper (s : String) : String := String.mk (s.data.map Char.toUpper)

/-- Python `str.lower()` (ASCII). -/
def pyLower (s : String) : String := String.mk (s.data.map Char.toLower)

/-- Truthiness of `args.mac` in `run`: `None` and the empty string are
falsy, every other string is truthy. -/
def pyTruthyOptStr : Option String → Bool
| none => false
| some s => !(s == "")

/-- Python f-string rendering of `args.mac` / `args.format`
(an `Option String`): `None` prints as the string `None`. -/
def optToStr : Option String → String
| none => "None"
| some s => s

/-- Divide `m` by `d > 0` rounding to the nearest integer, ties to even
— the rounding used by Python `format(x, ".2f")` (computed on the exact
decimal value). -/
def divRoundHalfEven (m : ℤ) (d : ℤ) : ℤ :=
  let q := m.fdiv d
  let r := m - q * d
  if 2 * r < d then q
  else if d < 2 * r then q + 1
  else if q % 2 = 0 then q else q + 1

/-- Numerator of `(m / 10 ^ e) * 100` rounded half-to-even to an
integer: the integer `n` such that Python renders `n / 100` with
`"%.2f"`. -/
def scale2 (m : ℤ) (e : ℕ) : ℤ :=
  if e ≤ 2 then m * 10 ^ (2 - e)
  else divRoundHalfEven m (10 ^ (e - 2))

/-- Fixed-point rendering with exactly two decimals, Python `"%.2f"`,
of the decimal `m / 10 ^ e`. -/
def fmt2 (m : ℤ) (e : ℕ) : String :=
  let n := scale2 m e
  let sign := if n < 0 then "-" else ""
  let k := n.natAbs
  sign ++ Nat.repr (k / 100) ++ "." ++
    (if k % 100 < 10 then "0" else "") ++ Nat.repr (k % 100)

/-- Strip trailing decimal zeros: reduce `(m, e)` while `e > 0` and
`10 ∣ m`. -/
def stripZeros : ℤ → ℕ → ℤ × ℕ
| m, 0 => (m, 0)
| m, e + 1 => if m % 10 = 0 then stripZeros (m / 10) e else (m, e + 1)

/-- Decimal rendering with at least one fractional digit — the model of
Python `str(<float>)` for the exact decimals this program handles. -/
def decStr (m : ℤ) (e : ℕ) : String :=
  let (m, e) := stripZeros m e
  let sign := if m < 0 then "-" else ""
  let n := m.natAbs
  let tp := 10 ^ e
  if e = 0 then sign ++ Nat.repr n ++ ".0"
  else
    sign ++ Nat.repr (n / tp) ++ "." ++
      (String.mk (List.replicate (e - (Nat.repr (n % tp)).length) '0')) ++
      Nat.repr (n % tp)

/-- Python `str()` / f-string interpolation of a record field value. -/
def pyStr : PyVal → String
| .str s => s
| .num false m _ => if m < 0 then "-" ++ Nat.repr m.natAbs else Nat.repr m.natAbs
| .num true m e => decStr m e

/-- Python `format(v, ".2f")`: defined for numbers (ints and floats
alike), raises `ValueError` for strings (the placeholder defaults `-`,
`?`). -/
def formatFixed2 : PyVal → Except String String
| .num _ m e => .ok (fmt2 m e)
| .str _ => .error "Unknown format code f for object of type str"

/-- The `Acceleration` class: three components. -/
structure Acceleration where
  x : PyVal
  y : PyVal
  z : PyVal
deriving DecidableEq

/-- The `Tag` class: one sensor record. -/
structure Tag where
  mac : String
  name : String
  humidity : PyVal
  temperature : PyVal
  pressure : PyVal
  acceleration : Acceleration
  battery : PyVal
  time : String
deriving DecidableEq

/-- `Tag()` with every argument defaulted, as in the source. -/
def defaultTag : Tag :=
  ⟨"--:--:--:--:--:--", "Unknown", .str "-", .str "-", .str "-",
   ⟨.num false 0 0, .num false 0 0, .num false 0 0⟩, .str "?", "?"⟩

/-- `Tag.__repr__`: formats temperature, humidity and pressure with
`%.2f` (in that evaluation order); propagates the `ValueError` raised
when a field holds a placeholder string. -/
def reprTag (t : Tag) : Except String String :=
  match formatFixed2 t.temperature with
  | .error e => .error e
  | .ok a =>
    match formatFixed2 t.humidity with
    | .error e => .error e
    | .ok b =>
      match formatFixed2 t.pressure with
      | .error e => .error e
      | .ok c => .ok (a ++ "C " ++ b ++ "% " ++ c ++ "hPa")

/-- Result of scanning a cluster of short options (one argv element
such as `-hFx`): the recognised `(option, value)` pairs, or a trailing
`-F` that must take the next argv element as its argument, or a
`GetoptError`. -/
inductive ShortScan where
| done (opts : List (String × String))
| needArg (opts : List (String × String))
| err (e : String)

/-- Scan the characters after the leading `-` of a short-option
cluster, against the option string `"hF:"`: `h` takes no argument, `F`
takes one (the rest of the cluster if non-empty, the next argv element
otherwise); any other character is a `GetoptError`. -/
def parseShorts : List Char → ShortScan
| [] => .done []
| 'h' :: cs =>
  match parseShorts cs with
  | .done o => .done (("-h", "") :: o)
  | .needArg o => .needArg (("-h", "") :: o)
  | .err e => .err e
| 'F' :: cs =>
  if cs = [] then .needArg [] else .done [("-F", String.mk cs)]
| c :: _ => .err ("option -" ++ String.mk [c] ++ " not recognized")

/-- Split a long-option body at the first `=`:
`format=xml ↦ (format, some xml)`. -/
def splitEq : List Char → List Char × Option (List Char)
| [] => ([], none)
| '=' :: rest => ([], some rest)
| c :: rest =>
  let (a, b) := splitEq rest
  (c :: a, b)

/-- The long options accepted by `parse_arguments`, with whether each
takes an argument: `["help", "format=", "show="]`. -/
def longOptNames : List (String × Bool) := [("help", false), ("format", true), ("show", true)]

/-- Match a long-option name against `longOptNames` with the unique
prefix matching of Python `getopt`. -/
def matchLong (name : String) : Except String (String × Bool) :=
  match longOptNames.filter (fun c => name.data.isPrefixOf c.1.data) with
  | [] => .error ("option --" ++ name ++ " not recognized")
  | [c] => .ok c
  | _ => .error ("option --" ++ name ++ " not a unique prefix")

/-- `getopt.gnu_getopt(args, "hF:", ["help", "format=", "show="])`:
scans the whole argument list (GNU permutation), collecting
`(option, value)` pairs and positional arguments in encounter order;
`--` ends option processing. -/
def gnuGetopt : List String → List (String × String) → List String →
    Except String (List (String × String) × List String)
| [], opts, pos => .ok (opts, pos)
| a :: rest, opts, pos =>
  match a.data with
  | '-' :: '-' :: [] => .ok (opts, pos ++ rest)
  | '-' :: '-' :: c :: cs =>
    (let (name, val) := splitEq (c :: cs)
     match matchLong (String.mk name) with
     | .error e => .error e
     | .ok (canon, hasArg) =>
       if hasArg then
         match val with
         | some v => gnuGetopt rest (opts ++ [("--" ++ canon, String.mk v)]) pos
         | none =>
           match rest with
           | [] => .error ("option --" ++ canon ++ " requires argument")
           | v :: rest2 => gnuGetopt rest2 (opts ++ [("--" ++ canon, v)]) pos
       else
         match val with
         | some _ => .error ("option --" ++ canon ++ " must not have an argument")
         | none => gnuGetopt rest (opts ++ [("--" ++ canon, "")]) pos)
  | '-' :: c :: cs =>
    (match parseShorts (c :: cs) with
     | .err e => .error e
     | .done newopts => gnuGetopt rest (opts ++ newopts) pos
     | .needArg newopts =>
       match rest with
       | [] => .error "option -F requires argument"
       | v :: rest2 => gnuGetopt rest2 (opts ++ newopts ++ [("-F", v)]) pos)
  | _ => gnuGetopt rest opts (pos ++ [a])

/-- `os.path.basename`: the part of the path after the last slash. -/
def lastComponent : List Char → List Char → List Char
| [], cur => cur.reverse
| '/' :: rest, _ => lastComponent rest []
| c :: rest, cur => lastComponent rest (c :: cur)

/-- `os.path.basename(argv[0])`. -/
def basename (s : String) : String := String.mk (lastComponent s.data [])

/-- The usage text printed for `-h` / `--help`. -/
def helpstring (prog : String) : String :=
  "usage: " ++ prog ++ " [OPTIONS]... ADDRESS\n" ++
  "Display information from a ruuvitag-hark server in a specified format.\n\n" ++
  "Options:\n" ++
  "  -F, --format FORMAT  Specify what FORMAT to use for the output. See FORMAT\n" ++
  "      --show MAC       Show ruuvitag with MAC address\n" ++
  "  -h, --help           Print this message then exits\n\n" ++
  "FORMAT:\n" ++
  "  Supported formats:\n" ++
  "    waybar: wayland bar for wlroots based compositors.\n" ++
  "    influxdb: time series database.\n"

/-- Outcome of `parse_arguments`: printed help then `sys.exit(0)`;
called `parser.error` (message to stderr plus a try-help hint, then
`sys.exit(2)`); or returned an `Arguments` object holding the stored
format, MAC filter and server address. -/
inductive ParseResult where
| help
| usageError (msg : String)
| ok (format : Option String) (mac : Option String) (address : String)
deriving DecidableEq

/-- The option loop of `parse_arguments`: `-h`/`--help` prints the help
and exits; `--show` stores the upper-cased value; `-F`/`--format`
stores the lower-cased value. -/
def processOpts : List (String × String) → Option String → Option String → String → ParseResult
| [], fmt, mac, addr => .ok fmt mac addr
| (o, a) :: rest, fmt, mac, addr =>
  if o = "-h" ∨ o = "--help" then .help
  else if o = "--show" then processOpts rest fmt (some (pyUpper a)) addr
  else if o = "-F" ∨ o = "--format" then processOpts rest (some (pyLower a)) mac addr
  else processOpts rest fmt mac addr

/-- `parse_arguments(argv)`: run `gnu_getopt` on `argv[1:]`; a
`GetoptError` goes to `parser.error`; a missing positional address is
the dedicated usage error; otherwise the last positional is the
address and the option loop runs.  Returns the program name (basename
of `argv[0]`) alongside the outcome. -/
def parse_arguments (argv : List String) : String × ParseResult :=
  let prog := basename ((argv.headD ""))
  match gnuGetopt argv.tail [] [] with
  | .error e => (prog, .usageError e)
  | .ok (opts, pos) =>
    match pos.getLast? with
    | none => (prog, .usageError "Need to specify an url to a ruuvitag-hark server.")
    | some addr => (prog, processOpts opts none none addr)

/-- A parsed `datetime`: calendar fields, microseconds, and the parsed
UTC offset in minutes (replaced by UTC before any use, exactly as
`time_d.replace(tzinfo=datetime.timezone.utc)` does). -/
structure DT where
  year : ℕ
  month : ℕ
  day : ℕ
  hour : ℕ
  minute : ℕ
  second : ℕ
  micro : ℕ
  tz : Option ℤ
deriving DecidableEq

/-- Numeric value of a decimal digit, if the character is one. -/
def digitVal (c : Char) : Option ℕ :=
  if c.isDigit then some (c.toNat - 48) else none

/-- Read exactly `n` decimal digits, returning their value and the rest
of the input. -/
def readDigits : ℕ → ℕ → List Char → Option (ℕ × List Char)
| 0, acc, cs => some (acc, cs)
| _ + 1, _, [] => none
| n + 1, acc, c :: cs =>
  match digitVal c with
  | some v => readDigits n (acc * 10 + v) cs
  | none => none

/-- Consume one expected character. -/
def expectChar (c : Char) : List Char → Option (List Char)
| [] => none
| x :: rest => if x = c then some rest else none

/-- Gregorian leap year. -/
def isLeap (y : ℕ) : Bool := (y % 4 == 0 && y % 100 != 0) || y % 400 == 0

/-- Length of a month. -/
def daysInMonth (y m : ℕ) : ℕ :=
  if m = 2 then (if isLeap y then 29 else 28)
  else if m = 4 ∨ m = 6 ∨ m = 9 ∨ m = 11 then 30 else 31

/-- Days in the months of year `y` strictly before month `m`. -/
def daysBeforeMonth (y m : ℕ) : ℕ :=
  (((List.range (m - 1)).map (fun i => daysInMonth y (i + 1))).sum)

/-- Proleptic Gregorian ordinal of a date, with day 1 = 0001-01-01 —
`datetime.date.toordinal`. -/
def toOrdinal (y m d : ℕ) : ℕ :=
  (y - 1) * 365 + (y - 1) / 4 - (y - 1) / 100 + (y - 1) / 400 +
    daysBeforeMonth y m + d

/-- Parse the optional fractional-seconds part: `.` followed by exactly
3 or 6 digits (`datetime.fromisoformat` accepts no other lengths).
Returns microseconds. -/
def parseFraction : List Char → Option (ℕ × List Char)
| '.' :: cs =>
  (match readDigits 3 0 cs with
   | none => none
   | some (v3, cs3) =>
     match readDigits 3 0 cs3 with
     | some (v6, cs6) => some (v3 * 1000 + v6, cs6)
     | none => some (v3 * 1000, cs3))
| cs => some (0, cs)

/-- Parse the optional UTC offset `±HH:MM`, returning minutes. -/
def parseOffset : List Char → Option (Option ℤ × List Char)
| [] => some (none, [])
| c :: cs =>
  if c = '+' ∨ c = '-' then
    match readDigits 2 0 cs with
    | none => none
    | some (oh, cs1) =>
      match expectChar ':' cs1 with
      | none => none
      | some cs2 =>
        match readDigits 2 0 cs2 with
        | none => none
        | some (om, cs3) =>
          if oh < 24 ∧ om < 60 then
            some (some ((if c = '-' then -1 else 1) * (oh * 60 + om : ℕ)), cs3)
          else none
  else none

/-- Parse the time-of-day part `HH[:MM[:SS[.fff[fff]]]]` with optional
offset; the input must be fully consumed. -/
def parseTime (cs : List Char) : Option (ℕ × ℕ × ℕ × ℕ × Option ℤ) :=
  match readDigits 2 0 cs with
  | none => none
  | some (h, cs1) =>
    match cs1 with
    | ':' :: cs2 =>
      (match readDigits 2 0 cs2 with
       | none => none
       | some (mi, cs3) =>
         match cs3 with
         | ':' :: cs4 =>
           (match readDigits 2 0 cs4 with
            | none => none
            | some (s, cs5) =>
              match parseFraction cs5 with
              | none => none
              | some (us, cs6) =>
                match parseOffset cs6 with
                | some (tz, []) =>
                  if h < 24 ∧ mi < 60 ∧ s < 60 then some (h, mi, s, us, tz) else none
                | _ => none)
         | _ =>
           match parseOffset cs3 with
           | some (tz, []) =>
             if h < 24 ∧ mi < 60 then some (h, mi, 0, 0, tz) else none
           | _ => none)
    | _ =>
      match parseOffset cs1 with
      | some (tz, []) => if h < 24 then some (h, 0, 0, 0, tz) else none
      | _ => none

/-- `datetime.datetime.fromisoformat`: `YYYY-MM-DD`, optionally
followed by a single separator character and a time-of-day with
optional fractional seconds and UTC offset. -/
def fromisoformat (str : String) : Option DT :=
  match readDigits 4 0 str.data with
  | none => none
  | some (y, cs1) =>
    match expectChar '-' cs1 with
    | none => none
    | some cs2 =>
      match readDigits 2 0 cs2 with
      | none => none
      | some (mo, cs3) =>
        match expectChar '-' cs3 with
        | none => none
        | some cs4 =>
          match readDigits 2 0 cs4 with
          | none => none
          | some (d, cs5) =>
            if 1 ≤ y ∧ y ≤ 9999 ∧ 1 ≤ mo ∧ mo ≤ 12 ∧ 1 ≤ d ∧ d ≤ daysInMonth y mo then
              match cs5 with
              | [] => some ⟨y, mo, d, 0, 0, 0, 0, none⟩
              | _ :: cs6 =>
                match parseTime cs6 with
                | none => none
                | some (h, mi, s, us, tz) => some ⟨y, mo, d, h, mi, s, us, tz⟩
            else none

/-- Seconds since the Unix epoch of a parsed datetime whose timezone
has been replaced by UTC (`719163` is `toOrdinal 1970 1 1`). -/
def epochSeconds (d : DT) : ℤ :=
  ((toOrdinal d.year d.month d.day : ℤ) - 719163) * 86400 +
    (d.hour : ℤ) * 3600 + (d.minute : ℤ) * 60 + (d.second : ℤ)

/-- Number of bits of a natural number (`0` for `0`), with explicit
fuel so it computes by structural recursion: `2 ^ (bitlen n - 1) ≤ n <
2 ^ bitlen n` for `n > 0`. -/
def bitlenAux : ℕ → ℕ → ℕ
| 0, _ => 0
| _ + 1, 0 => 0
| fuel + 1, n + 1 => 1 + bitlenAux fuel ((n + 1) / 2)

/-- Bit length with fuel ample for every quantity this program
produces. -/
def bitlen (n : ℕ) : ℕ := bitlenAux 300 n

/-- Is `p / q ≥ 2 ^ e` (for positive `p`, `q`)? -/
def gePow2 (p q : ℕ) (e : ℤ) : Bool :=
  if 0 ≤ e then q * 2 ^ e.toNat ≤ p else q ≤ p * 2 ^ (-e).toNat

/-- `⌊log2 (p / q)⌋` for positive `p`, `q`: the bit-length guess is off
by at most one, fixed by a single comparison. -/
def floorLog2Rat (p q : ℕ) : ℤ :=
  let e0 : ℤ := (bitlen p : ℤ) - (bitlen q : ℤ)
  if gePow2 p q e0 then e0 else e0 - 1

/-- Round the positive rational `p / q` to the nearest IEEE-754
binary64 value (ties to even), returned as `(m, e)` with value
`m * 2 ^ e` and `2 ^ 52 ≤ m ≤ 2 ^ 53` — the rounding performed by
every CPython float operation this program relies on (overflow and
subnormals are out of the program's datetime range). -/
def roundSigB64 (p q : ℕ) : ℕ × ℤ :=
  let l := floorLog2Rat p q
  let s : ℤ := 52 - l
  let m :=
    if 0 ≤ s then divRoundHalfEven ((p : ℤ) * 2 ^ s.toNat) (q : ℤ)
    else divRoundHalfEven (p : ℤ) ((q : ℤ) * 2 ^ (-s).toNat)
  if m = 2 ^ 53 then (2 ^ 52, l - 51) else (m.natAbs, l - 52)

/-- Round the rational `p / q` (`q > 0`) to the nearest binary64 value
`m * 2 ^ e`. -/
def roundB64 (p : ℤ) (q : ℕ) : ℤ × ℤ :=
  if p = 0 then (0, 0)
  else
    let me := roundSigB64 p.natAbs q
    (if p < 0 then -(me.1 : ℤ) else (me.1 : ℤ), me.2)

/-- Round the dyadic `p * 2 ^ e` to the nearest binary64 value. -/
def roundB64Dyadic (p : ℤ) (e : ℤ) : ℤ × ℤ :=
  if 0 ≤ e then roundB64 (p * 2 ^ e.toNat) 1 else roundB64 p (2 ^ (-e).toNat)

/-- Python `int()` of the dyadic `m * 2 ^ e`: truncation toward
zero. -/
def truncDyadic (m : ℤ) (e : ℤ) : ℤ :=
  if 0 ≤ e then m * 2 ^ e.toNat else m.tdiv (2 ^ (-e).toNat)

/-- `int(time_d.replace(tzinfo=utc).timestamp() * 1000000000)` exactly
as CPython evaluates it: `timestamp()` is the total microseconds since
the epoch divided by `10 ^ 6` with correctly rounded float true
division, the product with `1000000000` is one IEEE binary64
multiplication, and `int()` truncates toward zero.  The parsed offset
is not consulted (`tzinfo` is replaced by UTC). -/
def timestampNs (d : DT) : ℤ :=
  let usec : ℤ := epochSeconds d * 1000000 + (d.micro : ℤ)
  let f1 := roundB64 usec 1000000
  let f2 := roundB64Dyadic (f1.1 * 1000000000) f1.2
  truncDyadic f2.1 f2.2

/-- The influxdb timestamp of a record:
`int(time_d.replace(tzinfo=utc).timestamp() * 1000000000)` through
double precision (`timestampNs`).  A string `fromisoformat` cannot
parse raises `ValueError`. -/
def influxTimestamp (time : String) : Except String ℤ :=
  match fromisoformat time with
  | none => .error ("Invalid isoformat string: " ++ time)
  | some d => .ok (timestampNs d)

/-- One entry of the decoded JSON body: the ten fields the fetcher
extracts (all must be present; this model takes the already-decoded
object). -/
structure TagData where
  mac : String
  name : String
  humidity : PyVal
  temperature : PyVal
  pressure : PyVal
  acceleration_x : PyVal
  acceleration_y : PyVal
  acceleration_z : PyVal
  battery : PyVal
  time : String
deriving DecidableEq

/-- Construction of one `Tag` from a decoded JSON entry, as in
`fetch_tags`. -/
def mkTag (d : TagData) : Tag :=
  ⟨d.mac, d.name, d.humidity, d.temperature, d.pressure,
   ⟨d.acceleration_x, d.acceleration_y, d.acceleration_z⟩, d.battery, d.time⟩

/-- Abstraction of the single HTTP GET to `<address>/data`: either a
`pycurl.error` with its printed description, or a successfully decoded
JSON object in server key order. -/
inductive NetResult where
| failure (err : String)
| success (entries : List (String × TagData))

/-- A line on standard error: either `parser.error` output
(`<prog>: <msg>` followed by the try-help hint line) or raw text (the
printed `pycurl.error`). -/
inductive ErrLine where
| hint (prog : String) (msg : String)
| plain (s : String)
deriving DecidableEq

/-- `fetch_tags`: on transport failure print the error and return an
empty TagSet; on success build one `Tag` per JSON entry, in key
order.  Returns the TagSet together with the stderr output. -/
def fetch_tags (net : NetResult) : List (String × Tag) × List ErrLine :=
  match net with
  | .failure err => ([], [.plain err])
  | .success entries => (entries.map (fun e => (e.1, mkTag e.2)), [])

/-- The exceptions `run` can see from the waybar branch: `KeyError`
(caught, reported via `parser.error`) and `ValueError` from string
formatting (uncaught). -/
inductive PyExc where
| keyError (k : String)
| valueError (m : String)
deriving DecidableEq

/-- The waybar JSON object passed to `json.dump`: `tooltip` is absent
(`none`) in the empty-TagSet fallback object. -/
structure WaybarOutput where
  text : String
  tooltip : Option String
  klass : String
  percentage : PyVal
deriving DecidableEq

/-- What the process wrote to standard output. -/
inductive Output where
| empty
| helpText (s : String)
| waybarObj (w : WaybarOutput)
| influxLines (ls : List String)
deriving DecidableEq

/-- How the process ended: `exit0` (normal or help), `exit2`
(`parser.error`), or an uncaught Python exception. -/
inductive ExitSt where
| exit0
| exit2
| uncaught (err : String)
deriving DecidableEq

/-- Observable behaviour of one invocation. -/
structure RunResult where
  out : Output
  err : List ErrLine
  exit : ExitSt
deriving DecidableEq

/-- `args.mac = next(iter(tags))` substitution:
`if tags and not args.mac`. -/
def effectiveMac (tags : List (String × Tag)) (mac : Option String) : Option String :=
  match tags with
  | [] => mac
  | t :: _ => if pyTruthyOptStr mac then mac else some t.1

/-- `tags[args.mac]`: dictionary lookup, raising `KeyError` (whose
report renders the key with an f-string, so a `None` key prints as
`None`). -/
def lookupTag (tags : List (String × Tag)) (mac : Option String) : Except PyExc Tag :=
  match mac with
  | none => .error (.keyError "None")
  | some m =>
    match tags.lookup m with
    | some t => .ok t
    | none => .error (.keyError m)

/-- The tooltip list comprehension
`[f'{tag.name}: {tag}' for mac,tag in tags.items()]`, evaluated left to
right; a placeholder field raises `ValueError` at the offending tag. -/
def tooltipList : List (String × Tag) → Except String (List String)
| [] => .ok []
| (_, t) :: rest =>
  match reprTag t with
  | .error e => .error e
  | .ok r =>
    match tooltipList rest with
    | .error e => .error e
    | .ok rs => .ok ((t.name ++ ": " ++ r) :: rs)

/-- `'\n'.join`. -/
def joinNl : List String → String
| [] => ""
| [x] => x
| x :: xs => x ++ "\n" ++ joinNl xs

/-- The waybar branch of `run`: for a non-empty TagSet build
`{text, tooltip, class, percentage}` (evaluating `tags[args.mac]`
first, then the tooltip comprehension); for an empty TagSet build the
fallback `{text: str(Tag()), class, percentage: 0}` object. -/
def renderWaybar (tags : List (String × Tag)) (mac : Option String) :
    Except PyExc WaybarOutput :=
  match tags with
  | [] =>
    (match reprTag defaultTag with
     | .error e => .error (.valueError e)
     | .ok text => .ok ⟨text, none, "ruuvitag", .num false 0 0⟩)
  | _ :: _ =>
    match lookupTag tags mac with
    | .error e => .error e
    | .ok tag =>
      match reprTag tag with
      | .error e => .error (.valueError e)
      | .ok text =>
        match tooltipList tags with
        | .error e => .error (.valueError e)
        | .ok lines => .ok ⟨text, some (joinNl lines), "ruuvitag", tag.humidity⟩

/-- The seven influxdb line-protocol prints for one record, emitted
only after the record timestamp has been computed. -/
def influxRecordLines (mac : String) (t : Tag) : Except String (List String) :=
  match influxTimestamp t.time with
  | .error e => .error e
  | .ok ts =>
    .ok
      ["temperature,mac=" ++ mac ++ " temp_C=" ++ pyStr t.temperature ++ " " ++ toString ts,
       "humidity,mac=" ++ mac ++ " humidity_percent=" ++ pyStr t.humidity ++ " " ++ toString ts,
       "pressure,mac=" ++ mac ++ " pressure_hPa=" ++ pyStr t.pressure ++ " " ++ toString ts,
       "acceleration_x,mac=" ++ mac ++ " acceleration_g=" ++ pyStr t.acceleration.x ++ " " ++ toString ts,
       "acceleration_y,mac=" ++ mac ++ " acceleration_g=" ++ pyStr t.acceleration.y ++ " " ++ toString ts,
       "acceleration_z,mac=" ++ mac ++ " acceleration_g=" ++ pyStr t.acceleration.z ++ " " ++ toString ts,
       "battery,mac=" ++ mac ++ " battery_volt=" ++ pyStr t.battery ++ " " ++ toString ts]

/-- Total version of `influxRecordLines` (empty on a timestamp
error). -/
def recordLines (mac : String) (t : Tag) : List String :=
  match influxRecordLines mac t with
  | .ok ls => ls
  | .error _ => []

/-- The influxdb loop of `run`: lines printed so far, plus the
uncaught `ValueError` if some record time failed to parse. -/
def renderInflux : List (String × Tag) → List String × Option String
| [] => ([], none)
| (mac, t) :: rest =>
  match influxRecordLines mac t with
  | .error e => ([], some e)
  | .ok ls =>
    let (more, e) := renderInflux rest
    (ls ++ more, e)

/-- Lines of every record in iteration order (the claim-level
description of the influxdb output). -/
def allRecordLines : List (String × Tag) → List String
| [] => []
| p :: rest => recordLines p.1 p.2 ++ allRecordLines rest

/-- Format dispatch of `run` after the fetch: waybar (or unset format),
influxdb, or the unsupported-format `parser.error`; `KeyError` from the
waybar branch is caught and reported as `Tag "<mac>" does not exist`. -/
def dispatch (prog : String) (fmt : Option String) (mac0 : Option String)
    (tags : List (String × Tag)) (ferr : List ErrLine) : RunResult :=
  if fmt = some "waybar" ∨ fmt = none then
    match renderWaybar tags (effectiveMac tags mac0) with
    | .ok w => ⟨.waybarObj w, ferr, .exit0⟩
    | .error (.keyError k) =>
      ⟨.empty, ferr ++ [.hint prog ("Tag \"" ++ k ++ "\" does not exist")], .exit2⟩
    | .error (.valueError e) => ⟨.empty, ferr, .uncaught e⟩
  else if fmt = some "influxdb" then
    match renderInflux tags with
    | (ls, none) => ⟨.influxLines ls, ferr, .exit0⟩
    | (ls, some e) => ⟨.influxLines ls, ferr, .uncaught e⟩
  else
    ⟨.empty, ferr ++ [.hint prog (optToStr fmt ++ " is currently not supported")], .exit2⟩

/-- `run(argv)` with the network behaviour abstracted by `net`. -/
def run (argv : List String) (net : NetResult) : RunResult :=
  let pr := parse_arguments argv
  match pr.2 with
  | .help => ⟨.helpText (helpstring pr.1), [], .exit0⟩
  | .usageError m => ⟨.empty, [.hint pr.1 m], .exit2⟩
  | .ok fmt mac _ =>
    let ft := fetch_tags net
    dispatch pr.1 fmt mac ft.1 ft.2

/-- Effective MAC exactly as claim C4 words it: the `--show` value when
one was given; otherwise the first key of a non-empty TagSet; otherwise
none. -/
def claimedEffectiveMac (tags : List (String × Tag)) (showv : Option String) : Option String :=
  match showv with
  | some v => some v
  | none =>
    match tags with
    | [] => none
    | t :: _ => some t.1

/-- Effective MAC as amended: a non-empty `--show` value wins; an
absent or empty one is substituted by the first key of a non-empty
TagSet; with an empty TagSet the stored value stands. -/
def claimedEffectiveMacAmended (tags : List (String × Tag)) (showv : Option String) :
    Option String :=
  match showv with
  | some v =>
    if v = "" then
      match tags with
      | [] => some ""
      | t :: _ => some t.1
    else some v
  | none =>
    match tags with
    | [] => none
    | t :: _ => some t.1

/-- Net effect of the option loop on `args.mac`: the upper-cased value
of the last `--show` option, if any. -/
def macAfter (opts : List (String × String)) (mac : Option String) : Option String :=
  opts.foldl (fun m p => if p.1 = "--show" then some (pyUpper p.2) else m) mac

/-- Net effect of the option loop on `args.format`: the lower-cased
value of the last `-F`/`--format` option, if any. -/
def fmtAfter (opts : List (String × String)) (f : Option String) : Option String :=
  opts.foldl (fun m p => if p.1 = "-F" ∨ p.1 = "--format" then some (pyLower p.2) else m) f

/-- The waybar `text` field of a run, when one was emitted. -/
def outText : Output → Option String
| .waybarObj w => some w.text
| _ => none

/-- Sample decoded record used by the concrete test cases of the
specification (temperature 21.5, humidity 40.2, pressure 1013.0). -/
def sampleData : TagData :=
  ⟨"AA:BB:CC:DD:EE:FF", "Kitchen", .num true 402 1, .num true 215 1, .num true 10130 1,
   .num true 0 1, .num true 0 1, .num true 0 1, .num true 28 1,
   "2020-01-01T00:00:00+00:00"⟩

/-- A second sample record, for multi-record TagSets. -/
def sampleData2 : TagData :=
  ⟨"11:22:33:44:55:66", "Porch", .num true 501 1, .num true (-25) 1, .num true 9989 1,
   .num true 1 2, .num true 0 1, .num true (-98) 2, .num true 27 1,
   "2020-01-01T00:00:01+00:00"⟩

/-- The parsed form of `2020-01-01T00:00:00+00:00`. -/
def sampleDT : DT := ⟨2020, 1, 1, 0, 0, 0, 0, some 0⟩

/-- The parsed form of `2020-01-01T00:00:00+05:00` (offset 300
minutes, which the program replaces with UTC). -/
def sampleDT5 : DT := ⟨2020, 1, 1, 0, 0, 0, 0, some 300⟩

/-- A two-record TagSet in server order. -/
def tags2 : List (String × Tag) :=
  [("AA:BB:CC:DD:EE:FF", mkTag sampleData), ("11:22:33:44:55:66", mkTag sampleData2)]

/-- The waybar object computed for `tags2` with effective MAC
`AA:BB:CC:DD:EE:FF`. -/
def wSample : WaybarOutput :=
  ⟨"21.50C 40.20% 1013.00hPa",
   some "Kitchen: 21.50C 40.20% 1013.00hPa\nPorch: -2.50C 50.10% 998.90hPa",
   "ruuvitag", .num true 402 1⟩

/-- The `ValueError` message raised when `%.2f` is applied to a
placeholder string field. -/
def fmtErrMsg : String := "Unknown format code f for object of type str"

/-- The option loop exits through the help branch as soon as any
parsed option is `-h` or `--help`, wherever it sits in the list. -/
theorem processOpts_of_help (opts : List (String × String)) (fmt mac : Option String)
    (addr : String) (h : ∃ q ∈ opts, q.1 = "-h" ∨ q.1 = "--help") :
    processOpts opts fmt mac addr = .help := by
  induction opts generalizing fmt mac with
  | nil => simp at h
  | cons p rest ih =>
    obtain ⟨o, a⟩ := p
    by_cases h1 : o = "-h" ∨ o = "--help"
    · simp [processOpts, h1]
    · have hmem : ∃ q ∈ rest, q.1 = "-h" ∨ q.1 = "--help" := by
        rcases h with ⟨q, hq, hqh⟩
        rcases List.mem_cons.mp hq with rfl | hm
        · exact absurd hqh h1
        · exact ⟨q, hm, hqh⟩
      by_cases h2 : o = "--show"
      · simp [processOpts, h1, h2, ih _ _ hmem]
      · by_cases h3 : o = "-F" ∨ o = "--format"
        · simp [processOpts, h1, h2, h3, ih _ _ hmem]
        · simp [processOpts, h1, h2, h3, ih _ _ hmem]

/-- Without a help option the loop returns the stored format and MAC
described by the `fmtAfter`/`macAfter` folds. -/
theorem processOpts_no_help (opts : List (String × String)) (fmt mac : Option String)
    (addr : String) (h : ∀ q ∈ opts, ¬(q.1 = "-h" ∨ q.1 = "--help")) :
    processOpts opts fmt mac addr = .ok (fmtAfter opts fmt) (macAfter opts mac) addr := by
  induction opts generalizing fmt mac with
  | nil => rfl
  | cons p rest ih =>
    obtain ⟨o, a⟩ := p
    have h1 : ¬(o = "-h" ∨ o = "--help") := h (o, a) (List.mem_cons_self _ _)
    have h2 := fun q hq => h q (List.mem_cons_of_mem _ hq)
    by_cases hs : o = "--show"
    · subst hs
      simp [processOpts, fmtAfter, macAfter, ih _ _ h2]
    · by_cases hf : o = "-F" ∨ o = "--format"
      · simp [processOpts, fmtAfter, macAfter, h1, hs, hf, ih _ _ h2]
      · simp [processOpts, fmtAfter, macAfter, h1, hs, hf, ih _ _ h2]

/-- `tooltipList` success values are exactly the
`<name>: <display string>` lines of the records, in order. -/
theorem tooltipList_spec (tags : List (String × Tag)) (ls : List String)
    (h : tooltipList tags = .ok ls) :
    List.Forall₂ (fun (p : String × Tag) (l : String) =>
      ∃ r, reprTag p.2 = .ok r ∧ l = p.2.name ++ ": " ++ r) tags ls := by
  induction tags generalizing ls with
  | nil =>
    cases h
    exact List.Forall₂.nil
  | cons p rest ih =>
    obtain ⟨mk, t⟩ := p
    unfold tooltipList at h
    cases hr : reprTag t with
    | error e => rw [hr] at h; cases h
    | ok r =>
      rw [hr] at h
      cases ht : tooltipList rest with
      | error e => rw [ht] at h; cases h
      | ok rs =>
        rw [ht] at h
        cases h
        exact List.Forall₂.cons ⟨r, hr, rfl⟩ (ih rs ht)

/-- C1 counterexample: an argument vector containing `-h` but no
positional address does not print the help and exit 0 — the
missing-address check runs first, so the program prints the usage
error and exits 2. -/
theorem c1_counterexample :
    run ["ruuvitag-form", "-h"] (.success []) =
      ⟨.empty,
       [.hint "ruuvitag-form" "Need to specify an url to a ruuvitag-hark server."],
       .exit2⟩ := rfl

/-- C1 (amended): for every argument vector whose option parsing
succeeds with at least one positional argument and whose parsed
options include `-h` or `--help`, the program prints the usage text
and exits 0; the result does not depend on the network at all (no
fetch, no rendering). -/
theorem c1_amended (p : String) (rest : List String) (net : NetResult)
    (opts : List (String × String)) (pos : List String)
    (hg : gnuGetopt rest [] [] = .ok (opts, pos)) (hpos : pos ≠ [])
    (hh : ∃ q ∈ opts, q.1 = "-h" ∨ q.1 = "--help") :
    run (p :: rest) net = ⟨.helpText (helpstring (basename p)), [], .exit0⟩ := by
  obtain ⟨a, ha⟩ : ∃ a, pos.getLast? = some a := by
    cases pos with
    | nil => exact absurd rfl hpos
    | cons x xs => exact ⟨_, rfl⟩
  have hp : parse_arguments (p :: rest) = (basename p, ParseResult.help) := by
    unfold parse_arguments
    simp only [List.headD_cons, List.tail_cons]
    rw [hg]
    dsimp only
    rw [ha]
    dsimp only
    rw [processOpts_of_help opts none none a hh]
  simp [run, hp]

/-- C1 witness: `-h` together with an address prints the help. -/
theorem c1_witness :
    run ["ruuvitag-form", "-h", "http://server"] (.success []) =
      ⟨.helpText (helpstring "ruuvitag-form"), [], .exit0⟩ :=
  c1_amended "ruuvitag-form" ["-h", "http://server"] (.success []) [("-h", "")]
    ["http://server"] rfl (by decide) ⟨("-h", ""), by decide, Or.inl rfl⟩

/-- C2: a transport failure in waybar (or unset) format prints the
error to standard error and leaves the TagSet empty, but the run does
not exit 0 with the default rendering — the empty-TagSet fallback
formats the placeholder `-` with `%.2f`, raising an uncaught
`ValueError` before anything is written to standard output. -/
theorem c2_transport_failure (err : String) :
    run ["ruuvitag-form", "http://server"] (.failure err) =
      ⟨.empty, [.plain err], .uncaught fmtErrMsg⟩ ∧
    run ["ruuvitag-form", "-F", "waybar", "http://server"] (.failure err) =
      ⟨.empty, [.plain err], .uncaught fmtErrMsg⟩ :=
  ⟨rfl, rfl⟩

/-- C9: any stored format other than `waybar`, `influxdb` or unset is
reported as `<format> is currently not supported` with the try-help
hint (the `ErrLine.hint` form) and exit code 2. -/
theorem c9_unsupported (prog s : String) (mac0 : Option String)
    (tags : List (String × Tag)) (ferr : List ErrLine)
    (h1 : s ≠ "waybar") (h2 : s ≠ "influxdb") :
    dispatch prog (some s) mac0 tags ferr =
      ⟨.empty, ferr ++ [.hint prog (s ++ " is currently not supported")], .exit2⟩ := by
  have hw : ¬((some s = some "waybar") ∨ ((some s : Option String) = none)) := by
    simp [h1]
  have hi : ¬((some s : Option String) = some "influxdb") := by simp [h2]
  unfold dispatch
  rw [if_neg hw, if_neg hi]
  rfl

/-- C9 witness: `--format=xml` is rejected with exit code 2. -/
theorem c9_witness :
    dispatch "ruuvitag-form" (some "xml") none [] [] =
      ⟨.empty, [.hint "ruuvitag-form" "xml is currently not supported"], .exit2⟩ :=
  c9_unsupported "ruuvitag-form" "xml" none [] [] (by decide) (by decide)

/-- C10: the display string of the all-default record applies `%.2f`
to the placeholder `-`, which raises a formatting error, so the
empty-TagSet waybar branch raises and never writes its fallback JSON
object to standard output. -/
theorem c10_empty_waybar :
    reprTag defaultTag = .error fmtErrMsg ∧
    (∀ (prog : String) (mac0 : Option String) (ferr : List ErrLine),
        dispatch prog none mac0 [] ferr = ⟨.empty, ferr, .uncaught fmtErrMsg⟩) ∧
    (∀ (prog : String) (mac0 : Option String) (ferr : List ErrLine),
        dispatch prog (some "waybar") mac0 [] ferr = ⟨.empty, ferr, .uncaught fmtErrMsg⟩) :=
  ⟨rfl, fun _ _ _ => rfl, fun _ _ _ => rfl⟩

/-- C3 counterexample: in influxdb format an unknown `--show` MAC is
never looked up — the run prints all records and exits 0 instead of
failing with exit code 2 and the `Tag does not exist` message. -/
theorem c3_counterexample :
    run ["ruuvitag-form", "-F", "influxdb", "--show=unknown", "http://server"]
        (.success [("AA:BB:CC:DD:EE:FF", sampleData)]) =
      ⟨.influxLines
        ["temperature,mac=AA:BB:CC:DD:EE:FF temp_C=21.5 1577836800000000000",
         "humidity,mac=AA:BB:CC:DD:EE:FF humidity_percent=40.2 1577836800000000000",
         "pressure,mac=AA:BB:CC:DD:EE:FF pressure_hPa=1013.0 1577836800000000000",
         "acceleration_x,mac=AA:BB:CC:DD:EE:FF acceleration_g=0.0 1577836800000000000",
         "acceleration_y,mac=AA:BB:CC:DD:EE:FF acceleration_g=0.0 1577836800000000000",
         "acceleration_z,mac=AA:BB:CC:DD:EE:FF acceleration_g=0.0 1577836800000000000",
         "battery,mac=AA:BB:CC:DD:EE:FF battery_volt=2.8 1577836800000000000"],
       [], .exit0⟩ := rfl

/-- C3 (amended): in waybar (or unset) format, a non-empty stored MAC
that is not a key of a non-empty TagSet makes the run fail with
`Tag "<mac>" does not exist` (with the try-help hint) and exit code
2. -/
theorem c3_amended (prog : String) (fmt : Option String) (m : String)
    (tags : List (String × Tag)) (ferr : List ErrLine)
    (hfmt : fmt = some "waybar" ∨ fmt = none) (hm : m ≠ "")
    (hne : tags ≠ []) (hlk : tags.lookup m = none) :
    dispatch prog fmt (some m) tags ferr =
      ⟨.empty, ferr ++ [.hint prog ("Tag \"" ++ m ++ "\" does not exist")], .exit2⟩ := by
  cases tags with
  | nil => exact absurd rfl hne
  | cons t ts =>
    have hmac : effectiveMac (t :: ts) (some m) = some m := by
      simp [effectiveMac, pyTruthyOptStr, hm]
    unfold dispatch
    rw [if_pos hfmt, hmac]
    simp only [renderWaybar, lookupTag]
    rw [hlk]

/-- C3 witness: `--show` of an absent MAC in the default waybar format
produces the exit-2 error. -/
theorem c3_witness :
    dispatch "ruuvitag-form" none (some "UNKNOWN")
        [("AA:BB:CC:DD:EE:FF", mkTag sampleData)] [] =
      ⟨.empty, [.hint "ruuvitag-form" "Tag \"UNKNOWN\" does not exist"], .exit2⟩ :=
  c3_amended "ruuvitag-form" none "UNKNOWN" [("AA:BB:CC:DD:EE:FF", mkTag sampleData)] []
    (Or.inr rfl) (by decide) (by decide) rfl

/-- C4 counterexample: `--show=` stores the empty string, which the
claim says becomes the effective MAC, but the code treats the empty
string as falsy and substitutes the first TagSet key. -/
theorem c4_counterexample :
    (parse_arguments ["ruuvitag-form", "--show=", "http://server"]).2 =
      ParseResult.ok none (some "") "http://server" ∧
    effectiveMac [("AA:BB:CC:DD:EE:FF", mkTag sampleData)] (some "") =
      some "AA:BB:CC:DD:EE:FF" ∧
    claimedEffectiveMac [("AA:BB:CC:DD:EE:FF", mkTag sampleData)] (some "") = some "" ∧
    (some "AA:BB:CC:DD:EE:FF" : Option String) ≠ some "" :=
  ⟨rfl, rfl, rfl, by decide⟩

/-- C4 (amended): the option loop stores the upper-cased value of the
last `--show` (and the lower-cased value of the last format option),
and the effective MAC is the stored `--show` value when it is
non-empty; otherwise the first key of a non-empty TagSet; otherwise
the stored value stands (so no effective MAC when `--show` was
absent). -/
theorem c4_amended :
    (∀ (opts : List (String × String)) (fmt mac : Option String) (addr : String),
        (∀ q ∈ opts, ¬(q.1 = "-h" ∨ q.1 = "--help")) →
        processOpts opts fmt mac addr = .ok (fmtAfter opts fmt) (macAfter opts mac) addr) ∧
    (∀ (tags : List (String × Tag)) (showv : Option String),
        effectiveMac tags showv = claimedEffectiveMacAmended tags showv) := by
  constructor
  · exact processOpts_no_help
  · intro tags showv
    cases showv with
    | none => cases tags <;> rfl
    | some v =>
      by_cases hv : v = ""
      · subst hv
        cases tags <;> simp [effectiveMac, claimedEffectiveMacAmended, pyTruthyOptStr]
      · cases tags <;>
          simp [effectiveMac, claimedEffectiveMacAmended, pyTruthyOptStr, hv]

/-- C4 witness: `--show aa:bb` is stored upper-cased and survives as
the effective MAC. -/
theorem c4_witness :
    processOpts [("--show", "aa:bb")] none none "http://server" =
      ParseResult.ok none (some "AA:BB") "http://server" ∧
    effectiveMac [] (some "AA:BB") = some "AA:BB" :=
  ⟨(c4_amended.1 [("--show", "aa:bb")] none none "http://server" (by decide)).trans (by rfl),
   (c4_amended.2 [] (some "AA:BB")).trans (by rfl)⟩

/-- C5: a record whose temperature, humidity and pressure are numbers
displays as the three values rendered with fixed-point two-decimal
formatting in the shape `<t>C <h>% <p>hPa`; in particular the sample
record (21.5, 40.2, 1013.0) yields waybar text exactly
`21.50C 40.20% 1013.00hPa`. -/
theorem c5_display :
    (∀ (tag : Tag) (bt bh bp : Bool) (mt mh mp : ℤ) (et eh ep : ℕ),
        tag.temperature = .num bt mt et → tag.humidity = .num bh mh eh →
        tag.pressure = .num bp mp ep →
        reprTag tag = .ok (fmt2 mt et ++ "C " ++ fmt2 mh eh ++ "% " ++ fmt2 mp ep ++ "hPa")) ∧
    outText (run ["ruuvitag-form", "http://server"]
        (.success [("AA:BB:CC:DD:EE:FF", sampleData)])).out =
      some "21.50C 40.20% 1013.00hPa" := by
  constructor
  · intro tag bt bh bp mt mh mp et eh ep h1 h2 h3
    simp [reprTag, formatFixed2, h1, h2, h3]
  · rfl

/-- C5 witness: the sample record displays as the literal string. -/
theorem c5_witness :
    reprTag (mkTag sampleData) = .ok "21.50C 40.20% 1013.00hPa" :=
  (c5_display.1 (mkTag sampleData) true true true 215 402 10130 1 1 1 rfl rfl rfl).trans
    (by rfl)

/-- C6 counterexample: for an empty TagSet the waybar branch does not
emit an object with `percentage` 0 — `str(Tag())` raises before
`json.dump`, so nothing at all is written to standard output. -/
theorem c6_counterexample :
    run ["ruuvitag-form", "http://server"] (.success []) =
      ⟨.empty, [], .uncaught fmtErrMsg⟩ := rfl

/-- C6 (amended): for a non-empty TagSet whose effective MAC is a key,
the emitted waybar object has `class` `ruuvitag`, `percentage` equal
to the effective record's humidity, and `tooltip` equal to the
newline-joined `<name>: <display string>` lines of every record in
iteration order; for an empty TagSet the branch raises the placeholder
formatting error and emits nothing. -/
theorem c6_amended :
    (∀ (tags : List (String × Tag)) (m : String) (tag : Tag) (w : WaybarOutput),
        tags.lookup m = some tag →
        renderWaybar tags (some m) = .ok w →
        w.klass = "ruuvitag" ∧ w.percentage = tag.humidity ∧
        ∃ ls, tooltipList tags = .ok ls ∧ w.tooltip = some (joinNl ls) ∧
          List.Forall₂ (fun (p : String × Tag) (l : String) =>
            ∃ r, reprTag p.2 = .ok r ∧ l = p.2.name ++ ": " ++ r) tags ls) ∧
    (∀ mac0 : Option String, renderWaybar [] mac0 = .error (.valueError fmtErrMsg)) := by
  constructor
  · intro tags m tag w hlk hrw
    cases tags with
    | nil => cases hlk
    | cons t ts =>
      unfold renderWaybar lookupTag at hrw
      dsimp only at hrw
      rw [hlk] at hrw
      dsimp only at hrw
      cases hr : reprTag tag with
      | error e => rw [hr] at hrw; cases hrw
      | ok text =>
        rw [hr] at hrw
        dsimp only at hrw
        cases ht : tooltipList (t :: ts) with
        | error e => rw [ht] at hrw; cases hrw
        | ok ls =>
          rw [ht] at hrw
          cases hrw
          exact ⟨rfl, rfl, ls, rfl, rfl, tooltipList_spec _ _ ht⟩
  · intro mac0
    rfl

/-- C6 witness: the two-record sample TagSet produces the expected
object fields. -/
theorem c6_witness :
    wSample.klass = "ruuvitag" ∧ wSample.percentage = (mkTag sampleData).humidity ∧
    ∃ ls, tooltipList tags2 = .ok ls ∧ wSample.tooltip = some (joinNl ls) ∧
      List.Forall₂ (fun (p : String × Tag) (l : String) =>
        ∃ r, reprTag p.2 = .ok r ∧ l = p.2.name ++ ": " ++ r) tags2 ls :=
  c6_amended.1 tags2 "AA:BB:CC:DD:EE:FF" (mkTag sampleData) wSample rfl rfl

/-- C7: when every record time parses, the influxdb loop emits, per
record in iteration order, exactly the seven measurement lines in the
fixed order temperature, humidity, pressure, acceleration x y z,
battery, all of them carrying the record's one timestamp. -/
theorem c7_influx :
    (∀ tags : List (String × Tag),
        (∀ p ∈ tags, ∃ ts, influxTimestamp p.2.time = .ok ts) →
        renderInflux tags = (allRecordLines tags, none)) ∧
    (∀ (mac : String) (t : Tag) (ts : ℤ), influxTimestamp t.time = .ok ts →
        recordLines mac t =
          ["temperature,mac=" ++ mac ++ " temp_C=" ++ pyStr t.temperature ++ " " ++ toString ts,
           "humidity,mac=" ++ mac ++ " humidity_percent=" ++ pyStr t.humidity ++ " " ++ toString ts,
           "pressure,mac=" ++ mac ++ " pressure_hPa=" ++ pyStr t.pressure ++ " " ++ toString ts,
           "acceleration_x,mac=" ++ mac ++ " acceleration_g=" ++ pyStr t.acceleration.x ++ " " ++ toString ts,
           "acceleration_y,mac=" ++ mac ++ " acceleration_g=" ++ pyStr t.acceleration.y ++ " " ++ toString ts,
           "acceleration_z,mac=" ++ mac ++ " acceleration_g=" ++ pyStr t.acceleration.z ++ " " ++ toString ts,
           "battery,mac=" ++ mac ++ " battery_volt=" ++ pyStr t.battery ++ " " ++ toString ts]) := by
  constructor
  · intro tags h
    induction tags with
    | nil => rfl
    | cons p rest ih =>
      obtain ⟨mk, t⟩ := p
      obtain ⟨ts, hts⟩ := h (mk, t) (List.mem_cons_self _ _)
      have h2 := fun q hq => h q (List.mem_cons_of_mem _ hq)
      unfold renderInflux allRecordLines recordLines influxRecordLines
      rw [hts, ih h2]
  · intro mac t ts h
    unfold recordLines influxRecordLines
    rw [h]

/-- C7 witness: a one-record TagSet yields its seven lines and no
error. -/
theorem c7_witness :
    renderInflux [("AA:BB:CC:DD:EE:FF", mkTag sampleData)] =
      (allRecordLines [("AA:BB:CC:DD:EE:FF", mkTag sampleData)], none) ∧
    (allRecordLines [("AA:BB:CC:DD:EE:FF", mkTag sampleData)]).length = 7 :=
  ⟨c7_influx.1 [("AA:BB:CC:DD:EE:FF", mkTag sampleData)]
    (by
      intro p hp
      rw [List.mem_singleton] at hp
      subst hp
      exact ⟨1577836800000000000, rfl⟩),
   rfl⟩

/-- C8 counterexample: the program computes the timestamp through
double precision, so at `2020-01-01T00:00:00.000001+00:00` (parsed
with one microsecond) it emits `1577836800000001024`, while the
claimed `floor(seconds_since_epoch * 10 ^ 9)` of the same parsed time
is `1577836800000001000`. -/
theorem c8_counterexample :
    fromisoformat "2020-01-01T00:00:00.000001+00:00" =
      some ⟨2020, 1, 1, 0, 0, 0, 1, some 0⟩ ∧
    influxTimestamp "2020-01-01T00:00:00.000001+00:00" = .ok 1577836800000001024 ∧
    ⌊(((epochSeconds ⟨2020, 1, 1, 0, 0, 0, 1, some 0⟩ : ℚ) +
        ((⟨2020, 1, 1, 0, 0, 0, 1, some 0⟩ : DT).micro : ℚ) / 1000000) * 1000000000 : ℚ)⌋ =
      (1577836800000001000 : ℤ) ∧
    (1577836800000001024 : ℤ) ≠ 1577836800000001000 := by
  refine ⟨rfl, rfl, ?_, by decide⟩
  have he : epochSeconds ⟨2020, 1, 1, 0, 0, 0, 1, some 0⟩ = 1577836800 := rfl
  rw [he]
  rw [show (((1577836800 : ℤ) : ℚ) + ((1 : ℕ) : ℚ) / 1000000) * 1000000000 =
      ((1577836800000001000 : ℤ) : ℚ) by norm_num]
  exact Int.floor_intCast _

/-- C8 (amended): the timestamp is `int(timestamp() * 10 ^ 9)`
evaluated in IEEE-754 double precision, of the ISO-parsed time with
its offset replaced (not converted) — the result depends only on the
calendar fields and microseconds, never on the parsed offset; on the
sample `2020-01-01T00:00:00+00:00` (exactly representable) it is
exactly `1577836800000000000`, also when the offset is written
`+05:00`, and that value closes all seven lines of the record. -/
theorem c8_amended :
    (∀ (d : DT) (tzA tzB : Option ℤ),
        timestampNs ⟨d.year, d.month, d.day, d.hour, d.minute, d.second, d.micro, tzA⟩ =
          timestampNs ⟨d.year, d.month, d.day, d.hour, d.minute, d.second, d.micro, tzB⟩) ∧
    (∀ (s : String) (d : DT), fromisoformat s = some d →
        influxTimestamp s = .ok (timestampNs d)) ∧
    influxTimestamp "2020-01-01T00:00:00+00:00" = .ok 1577836800000000000 ∧
    influxTimestamp "2020-01-01T00:00:00+05:00" = .ok 1577836800000000000 ∧
    (∀ (mac : String) (t : Tag), t.time = "2020-01-01T00:00:00+00:00" →
        ∀ l ∈ recordLines mac t, ∃ p, l = p ++ " 1577836800000000000") := by
  refine ⟨fun d tzA tzB => rfl, ?_, rfl, rfl, ?_⟩
  · intro s d h
    unfold influxTimestamp
    rw [h]
  · intro mac t ht l hl
    unfold recordLines influxRecordLines at hl
    rw [ht] at hl
    rw [show influxTimestamp "2020-01-01T00:00:00+00:00" = .ok 1577836800000000000 from rfl]
      at hl
    dsimp only at hl
    simp only [List.mem_cons, List.not_mem_nil, or_false] at hl
    rcases hl with rfl | rfl | rfl | rfl | rfl | rfl | rfl <;>
      exact ⟨_, String.append_assoc _ _ _⟩

/-- C8 witness: the double-precision evaluation applied to the
`+05:00` sample. -/
theorem c8_amended_witness :
    influxTimestamp "2020-01-01T00:00:00+05:00" = .ok (timestampNs sampleDT5) ∧
    timestampNs sampleDT5 = 1577836800000000000 :=
  ⟨c8_amended.2.1 "2020-01-01T00:00:00+05:00" sampleDT5 rfl, rfl⟩

end RuuvitagForm
